import Mathlib

/-!
Shallow embedding of `src/app.js` of the face_detector repository.

The application keeps a mutable global state (camera stream, stored face
descriptors, face matcher, button enabled flags, canvas and panels) and
mutates it from synchronous event handlers (`stopCamera`, `captureFace`,
`deleteFace`, `recognizeFaces`) and from two self-rescheduling per-frame
loops (`detect` inside `detectFaces`, `recognize` inside `recognizeFaces`).
We embed the state as a structure `AppState` and every handler as a pure
state transformer.  The per-frame loop bodies become step functions
returning the new state together with a Boolean telling whether the loop
reschedules itself (`requestAnimationFrame`).

Descriptors are embedded as lists of rationals; the Euclidean distance is
represented internally by its square (`dist2`, a rational), which keeps the
development computable; the real Euclidean distance is `euclid`, its square
root, used in the statements that talk about the metric.
-/

/-- A face descriptor: the 128-dimensional embedding vector produced by the
detection library.  Embedded as a list of rationals. -/
def Descriptor : Type := List ℚ

deriving instance DecidableEq, Repr for Descriptor

/-- Squared Euclidean distance between two descriptors, componentwise over
the common prefix (descriptors produced by the library all have length 128,
so in every reachable use the two lists have equal length). -/
def dist2 : List ℚ → List ℚ → ℚ
  | a :: as, b :: bs => (a - b) ^ 2 + dist2 as bs
  | _, _ => 0

/-- Euclidean (L2) distance between two descriptors: the square root of
`dist2`.  Used only in statements; the executable code compares squared
distances against a squared threshold, which is equivalent. -/
noncomputable def euclid (a b : Descriptor) : ℝ :=
  Real.sqrt ((dist2 a b : ℚ) : ℝ)

/-- One stored gallery entry: `faceDescriptors.push({name, descriptor})` in
`captureFace` (src/app.js lines 124-127). -/
structure Face where
  name : String
  descriptor : Descriptor
deriving DecidableEq, Repr

/-- Mirror of `faceapi.LabeledFaceDescriptors(label, descriptors)` as built
in `recognizeFaces` (src/app.js lines 170-175): a label with its list of
reference descriptors (always a singleton list in this application). -/
structure LabeledFaceDescriptors where
  label : String
  descriptors : List Descriptor
deriving DecidableEq, Repr

/-- Result of one matcher query: the chosen label together with the squared
distance to the closest gallery descriptor.  The Euclidean distance the
library reports is the square root of `distSq`. -/
structure MatchResult where
  label : String
  distSq : ℚ
deriving DecidableEq, Repr

/-- Modelled from the spec: `faceapi.FaceMatcher` is external library code
not present under src/; per the spec it holds the labeled gallery snapshot
and a fixed distance threshold (0.6 in the observed default). -/
structure FaceMatcher where
  labeled : List LabeledFaceDescriptors
  threshold : ℚ
deriving DecidableEq, Repr

/-- All (label, squared distance to the query) candidate pairs, one per
gallery descriptor, in gallery order.  Modelled from the spec: the matcher
computes the Euclidean distance from the query to every gallery
descriptor. -/
def FaceMatcher.candidates (m : FaceMatcher) (q : Descriptor) :
    List (String × ℚ) :=
  m.labeled.flatMap fun e => e.descriptors.map fun d => (e.label, dist2 d q)

/-- Candidate with minimal squared distance; on ties the earlier candidate
in gallery order wins (the spec fixes this tie-break).  `none` only on an
empty candidate list. -/
def bestCandidate : List (String × ℚ) → Option (String × ℚ)
  | [] => none
  | c :: rest =>
    match bestCandidate rest with
    | none => some c
    | some c2 => if c.2 ≤ c2.2 then some c else some c2

/-- Modelled from the spec: `FaceMatcher.findBestMatch(queryDescriptor)` is
library code not present under src/; per the spec it returns the label of
the gallery entry at minimum Euclidean distance when that minimum is at
most the threshold, and the sentinel label "unknown" otherwise, reporting
the minimum distance either way.  Comparing squared distance against the
squared threshold is equivalent because the square root is monotone. -/
def FaceMatcher.findBestMatch (m : FaceMatcher) (q : Descriptor) :
    Option MatchResult :=
  match bestCandidate (m.candidates q) with
  | none => none
  | some c =>
    some (if c.2 ≤ m.threshold ^ 2 then ⟨c.1, c.2⟩ else ⟨"unknown", c.2⟩)

/-- The `faceDescriptors.map(face => new faceapi.LabeledFaceDescriptors(
face.name, [face.descriptor]))` expression of src/app.js lines 170-175. -/
def labeledFromGallery (g : List Face) : List LabeledFaceDescriptors :=
  g.map fun f => ⟨f.name, [f.descriptor]⟩

/-- The `new faceapi.FaceMatcher(labeledFaceDescriptors, 0.6)` expression of
src/app.js line 177. -/
def buildFaceMatcher (g : List Face) : FaceMatcher :=
  ⟨labeledFromGallery g, 0.6⟩

/-- One detection returned by `faceapi.detectAllFaces(...).withFaceLandmarks()
.withFaceDescriptors()`: only the descriptor matters to the embedded logic;
box and landmarks are consumed by rendering alone. -/
structure Detection where
  descriptor : Descriptor
deriving DecidableEq, Repr

/-- The mutable global state of src/app.js: the globals of lines 1-5, the
enabled flags of the four buttons, the canvas overlay (one entry per drawn
box, labelled by a match result in recognition mode), the two display
panels, whether each per-frame loop has been started, and the list of
`alert` messages shown to the user (the observable error channel). -/
structure AppState where
  videoStream : Bool
  faceDescriptors : List Face
  labeledFaceDescriptors : List LabeledFaceDescriptors
  faceMatcher : Option FaceMatcher
  startCameraDisabled : Bool
  stopCameraDisabled : Bool
  captureFaceDisabled : Bool
  recognizerDisabled : Bool
  canvas : List (Option MatchResult)
  galleryPanel : List String
  recognizedResults : List MatchResult
  detectLoopActive : Bool
  recognizeLoopActive : Bool
  alerts : List String
deriving DecidableEq, Repr

/-- Handler `startCamera` (src/app.js lines 37-55).  `acquired` tells
whether `getUserMedia` succeeded; on success the stream is installed, the
buttons are toggled and the detect loop starts; on failure an alert is
shown and nothing else changes. -/
def startCamera (s : AppState) (acquired : Bool) : AppState :=
  if acquired then
    { s with videoStream := true
             startCameraDisabled := true
             stopCameraDisabled := false
             captureFaceDisabled := false
             detectLoopActive := true }
  else
    { s with alerts := s.alerts ++
        ["Could not access the camera. Please ensure you have granted permissions."] }

/-- Handler `stopCamera` (src/app.js lines 58-73): guarded by
`if (videoStream)`; stops the stream, toggles the four buttons and clears
the canvas.  When no stream is active it does nothing at all. -/
def stopCamera (s : AppState) : AppState :=
  if s.videoStream then
    { s with videoStream := false
             startCameraDisabled := false
             stopCameraDisabled := true
             captureFaceDisabled := true
             recognizerDisabled := true
             canvas := [] }
  else s

/-- Body of the self-rescheduling `detect` loop inside `detectFaces`
(src/app.js lines 82-102).  Returns the new state and whether the loop
reschedules via `requestAnimationFrame`; the liveness check
`if (!videoStream) return` at the top makes a stopped loop return without
touching anything. -/
def detectStep (s : AppState) (detections : List Detection) :
    AppState × Bool :=
  if s.videoStream then
    ({ s with canvas := detections.map fun _ => none }, true)
  else
    (s, false)

/-- Body of the self-rescheduling `recognize` loop inside `recognizeFaces`
(src/app.js lines 183-219): liveness check first, then one match per
detection, drawn on the canvas and listed in the results panel.  The
matcher is present whenever this loop runs (it is installed before the loop
starts); the `none` branch is unreachable there. -/
def recognizeStep (s : AppState) (detections : List Detection) :
    AppState × Bool :=
  if s.videoStream then
    let results :=
      match s.faceMatcher with
      | some m => detections.filterMap fun d => m.findBestMatch d.descriptor
      | none => []
    ({ s with canvas := results.map some
              recognizedResults := results }, true)
  else
    (s, false)

/-- Handler `captureFace` (src/app.js lines 108-131).  `faceName` is the
`prompt` result (`none` models null from a cancelled prompt; the JS guard
`if (!faceName) return` also catches the empty string, the only falsy
string).  `detections` is what `detectAllFaces` returned for the current
frame.  With a truthy name and at least one detection the first detection
is appended to the gallery, the panel is refreshed and the recognize button
gate is recomputed; with zero detections an alert is shown and nothing
changes. -/
def captureFace (s : AppState) (faceName : Option String)
    (detections : List Detection) : AppState :=
  match faceName with
  | none => s
  | some name =>
    if name = "" then s
    else
      match detections with
      | [] => { s with alerts := s.alerts ++ ["No faces detected!"] }
      | d :: _ =>
        let fds := s.faceDescriptors ++ [{ name := name, descriptor := d.descriptor }]
        { s with faceDescriptors := fds
                 galleryPanel := fds.map Face.name
                 recognizerDisabled := fds.isEmpty }

/-- Handler `deleteFace` (src/app.js lines 156-160):
`faceDescriptors.splice(index, 1)` removes the entry at `index` when it is
in bounds and removes nothing otherwise (for a natural index), then the
panel is refreshed and the recognize button gate recomputed.  No bounds
check and no error of any kind appears in the source. -/
def deleteFace (s : AppState) (index : Nat) : AppState :=
  let fds := s.faceDescriptors.take index ++ s.faceDescriptors.drop (index + 1)
  { s with faceDescriptors := fds
           galleryPanel := fds.map Face.name
           recognizerDisabled := fds.isEmpty }

/-- Handler `recognizeFaces` (src/app.js lines 163-223): with an empty
gallery it alerts and returns; otherwise it builds the labeled descriptor
list and the matcher from the current gallery snapshot and starts the
recognize loop (whose per-frame body is `recognizeStep`). -/
def recognizeFaces (s : AppState) : AppState :=
  if s.faceDescriptors.isEmpty then
    { s with alerts := s.alerts ++ ["No faces stored for recognition!"] }
  else
    { s with labeledFaceDescriptors := labeledFromGallery s.faceDescriptors
             faceMatcher := some (buildFaceMatcher s.faceDescriptors)
             recognizeLoopActive := true }

/-- The three modes of the spec state machine. -/
inductive LoopMode where
  | Idle
  | Detecting
  | Recognizing
deriving DecidableEq, Repr

/-- The loop mode of a state, as the spec describes it: Idle without a live
stream, Recognizing while the stream is live and the recognize loop has
been started, Detecting while only the detect loop runs.  The source keeps
no explicit mode variable; this observer derives it from the globals. -/
def loopMode (s : AppState) : LoopMode :=
  if s.videoStream then
    if s.recognizeLoopActive then .Recognizing
    else if s.detectLoopActive then .Detecting
    else .Idle
  else .Idle

example : dist2 [1, 2] [1, 2] = 0 := by norm_num [dist2]
example : dist2 [0] [3] = 9 := by norm_num [dist2]
example :
    (buildFaceMatcher [⟨"A", [0]⟩]).findBestMatch [(3 : ℚ)/10] =
      some ⟨"A", 9/100⟩ := by
  norm_num [FaceMatcher.findBestMatch, FaceMatcher.candidates,
    buildFaceMatcher, labeledFromGallery, bestCandidate, dist2]
example :
    (buildFaceMatcher [⟨"A", [0]⟩]).findBestMatch [1] =
      some ⟨"unknown", 1⟩ := by
  norm_num [FaceMatcher.findBestMatch, FaceMatcher.candidates,
    buildFaceMatcher, labeledFromGallery, bestCandidate, dist2]
/-! Helper lemmas about the squared distance and the matcher. -/

theorem dist2_symm (a b : List ℚ) : dist2 a b = dist2 b a := by
  induction a generalizing b with
  | nil => cases b <;> simp [dist2]
  | cons x as ih =>
    cases b with
    | nil => simp [dist2]
    | cons y bs => simp only [dist2]; rw [ih bs]; ring

theorem dist2_self (a : List ℚ) : dist2 a a = 0 := by
  induction a with
  | nil => simp [dist2]
  | cons x as ih => simp [dist2, ih]

theorem euclid_symm (a b : Descriptor) : euclid a b = euclid b a := by
  unfold euclid
  rw [dist2_symm]

theorem euclid_self (a : Descriptor) : euclid a a = 0 := by
  unfold euclid
  rw [dist2_self]
  simp

theorem euclid_mono {a b q : Descriptor} (h : dist2 a q ≤ dist2 b q) :
    euclid a q ≤ euclid b q :=
  Real.sqrt_le_sqrt (by exact_mod_cast h)

theorem euclid_le_point_six_iff (a b : Descriptor) :
    euclid a b ≤ (0.6 : ℝ) ↔ dist2 a b ≤ (0.6 : ℚ) ^ 2 := by
  unfold euclid
  rw [Real.sqrt_le_left (by norm_num)]
  rw [show ((0.6 : ℝ)) ^ 2 = (((0.6 : ℚ) ^ 2 : ℚ) : ℝ) by push_cast; norm_num]
  exact_mod_cast Iff.rfl

theorem bestCandidate_spec (l : List (String × ℚ)) (hne : l ≠ []) :
    ∃ c, bestCandidate l = some c ∧ c ∈ l ∧ ∀ c2 ∈ l, c.2 ≤ c2.2 := by
  induction l with
  | nil => exact absurd rfl hne
  | cons a rest ih =>
    cases rest with
    | nil =>
      refine ⟨a, rfl, by simp, ?_⟩
      intro c2 hc2
      have : c2 = a := by simpa using hc2
      subst this
      exact le_refl _
    | cons b t =>
      obtain ⟨c, hc, hmem, hmin⟩ := ih (by simp)
      by_cases hle : a.2 ≤ c.2
      · refine ⟨a, ?_, List.mem_cons_self a _, ?_⟩
        · show (match bestCandidate (b :: t) with
            | none => some a
            | some c2 => if a.2 ≤ c2.2 then some a else some c2) = some a
          rw [hc]
          simp [hle]
        · intro c2 hc2
          rcases List.mem_cons.mp hc2 with h1 | h2
          · subst h1; exact le_refl _
          · exact le_trans hle (hmin c2 h2)
      · refine ⟨c, ?_, List.mem_cons_of_mem a hmem, ?_⟩
        · show (match bestCandidate (b :: t) with
            | none => some a
            | some c2 => if a.2 ≤ c2.2 then some a else some c2) = some c
          rw [hc]
          simp [hle]
        · intro c2 hc2
          rcases List.mem_cons.mp hc2 with h1 | h2
          · subst h1; exact le_of_not_le hle
          · exact hmin c2 h2

theorem candidates_buildFaceMatcher (g : List Face) (q : Descriptor) :
    (buildFaceMatcher g).candidates q =
      g.map fun f => (f.name, dist2 f.descriptor q) := by
  induction g with
  | nil => rfl
  | cons f t ih =>
    simp only [FaceMatcher.candidates, buildFaceMatcher, labeledFromGallery,
      List.map_cons, List.flatMap_cons] at ih ⊢
    simp [ih]
/-- C8: the distance the Matcher uses is Euclidean (L2) over the descriptor
vectors: every matcher candidate pairs a gallery label with the squared
Euclidean distance `dist2` to the query, and the Euclidean distance
`euclid` (the square root of `dist2`) is symmetric and vanishes on equal
descriptors: distance(a,b) = distance(b,a) and distance(a,a) = 0. -/
theorem matcher_distance_euclidean (g : List Face) (q : Descriptor)
    (a b : Descriptor) :
    (buildFaceMatcher g).candidates q =
      (g.map fun f => (f.name, dist2 f.descriptor q)) ∧
    euclid a b = Real.sqrt ((dist2 a b : ℚ) : ℝ) ∧
    dist2 a b = dist2 b a ∧
    dist2 a a = 0 ∧
    euclid a b = euclid b a ∧
    euclid a a = 0 :=
  ⟨candidates_buildFaceMatcher g q, rfl, dist2_symm a b, dist2_self a,
    euclid_symm a b, euclid_self a⟩

/-- C1: for every non-empty gallery and every query descriptor, the matcher
built from the gallery (`new faceapi.FaceMatcher(labeledFaceDescriptors,
0.6)`) returns a result whose squared distance is attained by a gallery
entry of minimum Euclidean distance to the query; the result carries the
label of that entry when the minimum Euclidean distance is at most 0.6 and
the sentinel label "unknown" when it exceeds 0.6, and the reported distance
is that minimum. -/
theorem findBestMatch_min (g : List Face) (q : Descriptor) (hne : g ≠ []) :
    ∃ r f, (buildFaceMatcher g).findBestMatch q = some r ∧ f ∈ g ∧
      r.distSq = dist2 f.descriptor q ∧
      (∀ f2 ∈ g, euclid f.descriptor q ≤ euclid f2.descriptor q) ∧
      Real.sqrt ((r.distSq : ℚ) : ℝ) = euclid f.descriptor q ∧
      (euclid f.descriptor q ≤ (0.6 : ℝ) → r.label = f.name) ∧
      ((0.6 : ℝ) < euclid f.descriptor q → r.label = "unknown") := by
  have hcand := candidates_buildFaceMatcher g q
  have hcne : (buildFaceMatcher g).candidates q ≠ [] := by
    rw [hcand]
    simpa using hne
  obtain ⟨c, hc, hmem, hmin⟩ := bestCandidate_spec _ hcne
  rw [hcand] at hmem
  obtain ⟨f, hf, hceq⟩ := List.mem_map.mp hmem
  have hc2 : c.2 = dist2 f.descriptor q := by rw [← hceq]
  have hc1 : c.1 = f.name := by rw [← hceq]
  have hmin2 : ∀ f2 ∈ g, c.2 ≤ dist2 f2.descriptor q := by
    intro f2 hf2
    exact hmin (f2.name, dist2 f2.descriptor q)
      (by rw [hcand]; exact List.mem_map_of_mem _ hf2)
  have hunfold : (buildFaceMatcher g).findBestMatch q =
      some (if c.2 ≤ (0.6 : ℚ) ^ 2 then ⟨c.1, c.2⟩ else ⟨"unknown", c.2⟩) := by
    unfold FaceMatcher.findBestMatch
    rw [hc]
    rfl
  by_cases hth : c.2 ≤ (0.6 : ℚ) ^ 2
  · refine ⟨⟨c.1, c.2⟩, f, ?_, hf, hc2, ?_, ?_, ?_, ?_⟩
    · rw [hunfold, if_pos hth]
    · intro f2 hf2
      exact euclid_mono (by rw [← hc2]; exact hmin2 f2 hf2)
    · show Real.sqrt ((c.2 : ℚ) : ℝ) = euclid f.descriptor q
      rw [hc2]
      rfl
    · intro _
      exact hc1
    · intro hgt
      exact absurd ((euclid_le_point_six_iff f.descriptor q).mpr
        (by rw [← hc2]; exact hth)) (not_le.mpr hgt)
  · refine ⟨⟨"unknown", c.2⟩, f, ?_, hf, hc2, ?_, ?_, ?_, ?_⟩
    · rw [hunfold, if_neg hth]
    · intro f2 hf2
      exact euclid_mono (by rw [← hc2]; exact hmin2 f2 hf2)
    · show Real.sqrt ((c.2 : ℚ) : ℝ) = euclid f.descriptor q
      rw [hc2]
      rfl
    · intro hle
      exfalso
      exact hth (by
        rw [hc2]
        exact (euclid_le_point_six_iff f.descriptor q).mp hle)
    · intro _
      rfl

/-- C1 witness: the theorem instantiated at the one-entry gallery
[("Alice", [0])] and the query [2/5]. -/
theorem findBestMatch_min_witness :
    ∃ r f,
      (buildFaceMatcher [⟨"Alice", [0]⟩]).findBestMatch [(2 : ℚ)/5] = some r ∧
      f ∈ [(⟨"Alice", [0]⟩ : Face)] ∧
      r.distSq = dist2 f.descriptor [(2 : ℚ)/5] ∧
      (∀ f2 ∈ [(⟨"Alice", [0]⟩ : Face)],
        euclid f.descriptor [(2 : ℚ)/5] ≤ euclid f2.descriptor [(2 : ℚ)/5]) ∧
      Real.sqrt ((r.distSq : ℚ) : ℝ) = euclid f.descriptor [(2 : ℚ)/5] ∧
      (euclid f.descriptor [(2 : ℚ)/5] ≤ (0.6 : ℝ) → r.label = f.name) ∧
      ((0.6 : ℝ) < euclid f.descriptor [(2 : ℚ)/5] → r.label = "unknown") :=
  findBestMatch_min [⟨"Alice", [0]⟩] [(2 : ℚ)/5] (by simp)
/-! Sample states used by the concrete witnesses and counterexamples. -/

/-- The state of the page right after loading: no stream, empty gallery, no
matcher, no loop running, nothing drawn, no alert shown. -/
def initialState : AppState where
  videoStream := false
  faceDescriptors := []
  labeledFaceDescriptors := []
  faceMatcher := none
  startCameraDisabled := false
  stopCameraDisabled := true
  captureFaceDisabled := true
  recognizerDisabled := true
  canvas := []
  galleryPanel := []
  recognizedResults := []
  detectLoopActive := false
  recognizeLoopActive := false
  alerts := []

/-- A state holding the three-entry gallery [A, B, C] of the spec examples. -/
def threeFaceState : AppState :=
  { initialState with
      faceDescriptors := [⟨"A", [0]⟩, ⟨"B", [1]⟩, ⟨"C", [2]⟩]
      galleryPanel := ["A", "B", "C"]
      recognizerDisabled := false }

/-- A state in Recognizing mode: live stream, one-entry gallery, both the
detect loop and the recognize loop started. -/
def recognizingState : AppState :=
  { initialState with
      videoStream := true
      faceDescriptors := [⟨"A", [0]⟩]
      galleryPanel := ["A"]
      recognizerDisabled := false
      faceMatcher := some (buildFaceMatcher [⟨"A", [0]⟩])
      detectLoopActive := true
      recognizeLoopActive := true }

/-- C2: when the gallery is empty, the start-recognition action only shows
the warning alert: the whole remaining state is untouched, so in particular
no matcher is built, the recognize loop is not started and the loop mode is
unchanged. -/
theorem recognizeFaces_empty_gallery (s : AppState)
    (h : s.faceDescriptors = []) :
    recognizeFaces s =
      { s with alerts := s.alerts ++ ["No faces stored for recognition!"] } ∧
    (recognizeFaces s).faceMatcher = s.faceMatcher ∧
    (recognizeFaces s).recognizeLoopActive = s.recognizeLoopActive ∧
    loopMode (recognizeFaces s) = loopMode s := by
  have hempty : s.faceDescriptors.isEmpty = true := by simp [h]
  refine ⟨?_, ?_, ?_, ?_⟩ <;> simp [recognizeFaces, hempty, loopMode]

/-- C2 witness: the theorem instantiated at the freshly loaded page state,
whose gallery is empty. -/
theorem recognizeFaces_empty_gallery_witness :
    recognizeFaces initialState =
      { initialState with
          alerts := initialState.alerts ++ ["No faces stored for recognition!"] } ∧
    (recognizeFaces initialState).faceMatcher = initialState.faceMatcher ∧
    (recognizeFaces initialState).recognizeLoopActive =
      initialState.recognizeLoopActive ∧
    loopMode (recognizeFaces initialState) = loopMode initialState :=
  recognizeFaces_empty_gallery initialState rfl

/-- C3: when the capture-face action finds zero detections (and the prompt
returned a truthy name, so the action reaches the detection step), the only
effect is the "No faces detected!" alert; the gallery is left exactly
unchanged. -/
theorem captureFace_no_detections (s : AppState) (name : String)
    (h : name ≠ "") :
    captureFace s (some name) [] =
      { s with alerts := s.alerts ++ ["No faces detected!"] } ∧
    (captureFace s (some name) []).faceDescriptors = s.faceDescriptors := by
  constructor <;> simp [captureFace, h]

/-- C3 witness: capturing with the name "Bob" and an empty detection list on
the initial state. -/
theorem captureFace_no_detections_witness :
    captureFace initialState (some "Bob") [] =
      { initialState with
          alerts := initialState.alerts ++ ["No faces detected!"] } ∧
    (captureFace initialState (some "Bob") []).faceDescriptors =
      initialState.faceDescriptors :=
  captureFace_no_detections initialState "Bob" (by decide)

/-- C4: a capture with a truthy name and at least one detection appends
exactly one entry made of the name and the first detection in the returned
sequence at the end of the gallery, leaving the existing entries and their
order unchanged; on an empty gallery this yields the one-entry gallery with
the new entry at index 0. -/
theorem captureFace_appends (s : AppState) (name : String) (d : Detection)
    (ds : List Detection) (h : name ≠ "") :
    (captureFace s (some name) (d :: ds)).faceDescriptors =
      s.faceDescriptors ++ [{ name := name, descriptor := d.descriptor }] ∧
    (s.faceDescriptors = [] →
      (captureFace s (some name) (d :: ds)).faceDescriptors =
        [{ name := name, descriptor := d.descriptor }] ∧
      (captureFace s (some name) (d :: ds)).faceDescriptors.length = 1) := by
  constructor
  · simp [captureFace, h]
  · intro h2
    constructor <;> simp [captureFace, h, h2]

/-- C4 witness: capturing "Bob" with one detection on the empty gallery of
the initial state. -/
theorem captureFace_appends_witness :
    (captureFace initialState (some "Bob") [⟨[1]⟩]).faceDescriptors =
      initialState.faceDescriptors ++ [{ name := "Bob", descriptor := [1] }] ∧
    (initialState.faceDescriptors = [] →
      (captureFace initialState (some "Bob") [⟨[1]⟩]).faceDescriptors =
        [{ name := "Bob", descriptor := [1] }] ∧
      (captureFace initialState (some "Bob") [⟨[1]⟩]).faceDescriptors.length = 1) :=
  captureFace_appends initialState "Bob" ⟨[1]⟩ [] (by decide)
/-- C5 counterexample: deleting index 5 from a 3-entry gallery does not fail
with IndexOutOfRange or any other error: `splice(5, 1)` removes nothing, so
the state is completely unchanged and no alert (the only user-visible error
channel of this program) is shown. -/
theorem deleteFace_out_of_bounds_silent :
    deleteFace threeFaceState 5 = threeFaceState ∧
    (deleteFace threeFaceState 5).alerts = [] := by
  constructor <;> rfl

/-- C5 as amended: deleting an in-bounds index removes exactly the entry at
that position and shifts all subsequent entries down by one, while deleting
an out-of-bounds natural index is a silent no-op: the gallery is unchanged
and no error is raised. -/
theorem deleteFace_semantics (s : AppState) (i : Nat) :
    (i < s.faceDescriptors.length →
      (deleteFace s i).faceDescriptors.length = s.faceDescriptors.length - 1 ∧
      (∀ j, j < i →
        (deleteFace s i).faceDescriptors[j]? = s.faceDescriptors[j]?) ∧
      (∀ j, i ≤ j →
        (deleteFace s i).faceDescriptors[j]? = s.faceDescriptors[j + 1]?)) ∧
    (s.faceDescriptors.length ≤ i →
      (deleteFace s i).faceDescriptors = s.faceDescriptors ∧
      (deleteFace s i).alerts = s.alerts) := by
  have hfds : (deleteFace s i).faceDescriptors =
      s.faceDescriptors.take i ++ s.faceDescriptors.drop (i + 1) := rfl
  constructor
  · intro hlt
    refine ⟨?_, ?_, ?_⟩
    · rw [hfds]
      simp only [List.length_append, List.length_take, List.length_drop]
      omega
    · intro j hj
      rw [hfds, List.getElem?_append, List.length_take]
      rw [if_pos (show j < min i s.faceDescriptors.length by omega)]
      rw [List.getElem?_take, if_pos hj]
    · intro j hij
      rw [hfds, List.getElem?_append, List.length_take]
      rw [if_neg (show ¬ j < min i s.faceDescriptors.length by omega)]
      rw [List.getElem?_drop]
      have harith : i + 1 + (j - min i s.faceDescriptors.length) = j + 1 := by
        omega
      rw [harith]
  · intro hle
    refine ⟨?_, rfl⟩
    rw [hfds, List.take_of_length_le hle,
      List.drop_eq_nil_of_le (by omega), List.append_nil]

/-- C5 witness: deleting index 0 from the 3-entry gallery [A, B, C], which
yields the 2-entry gallery [B, C]. -/
theorem deleteFace_semantics_witness :
    ((deleteFace threeFaceState 0).faceDescriptors.length =
        threeFaceState.faceDescriptors.length - 1 ∧
      (∀ j, j < 0 →
        (deleteFace threeFaceState 0).faceDescriptors[j]? =
          threeFaceState.faceDescriptors[j]?) ∧
      (∀ j, 0 ≤ j →
        (deleteFace threeFaceState 0).faceDescriptors[j]? =
          threeFaceState.faceDescriptors[j + 1]?)) ∧
    (deleteFace threeFaceState 0).faceDescriptors =
      [⟨"B", [1]⟩, ⟨"C", [2]⟩] :=
  ⟨(deleteFace_semantics threeFaceState 0).1 (by decide), by rfl⟩

/-- C6 counterexample: a capture with the whitespace-only label " " and one
detection is not rejected: the entry with the whitespace label is stored in
the gallery and no alert is shown, so the gallery does not stay unchanged
and an entry with a whitespace-only label is stored. -/
theorem captureFace_whitespace_stored :
    (captureFace initialState (some " ") [⟨[0]⟩]).faceDescriptors =
      [{ name := " ", descriptor := [0] }] ∧
    (captureFace initialState (some " ") [⟨[0]⟩]).alerts = [] := by
  constructor <;> rfl

/-- C6 as amended: a capture whose prompt was cancelled (null name) or
returned the empty label is a silent no-op leaving the whole state, and in
particular the gallery, unchanged (no InvalidLabel notice is shown); a
whitespace-only label such as " " is not rejected: the entry is appended to
the gallery with the whitespace label. -/
theorem captureFace_falsy_label_noop (s : AppState) (ds : List Detection)
    (d : Detection) :
    captureFace s none ds = s ∧
    captureFace s (some "") ds = s ∧
    (captureFace s (some " ") (d :: ds)).faceDescriptors =
      s.faceDescriptors ++ [{ name := " ", descriptor := d.descriptor }] :=
  ⟨rfl, rfl, rfl⟩

/-- C7: stopping the camera from Recognizing or Detecting moves the state
directly to Idle, and because each per-frame cycle checks liveness at its
start, after the stop both loop bodies return immediately: the state is
untouched and the cycle does not reschedule. -/
theorem stopCamera_stops_loop (s : AppState) (ds : List Detection)
    (h : loopMode s = LoopMode.Recognizing ∨ loopMode s = LoopMode.Detecting) :
    loopMode (stopCamera s) = LoopMode.Idle ∧
    recognizeStep (stopCamera s) ds = (stopCamera s, false) ∧
    detectStep (stopCamera s) ds = (stopCamera s, false) := by
  have hv : s.videoStream = true := by
    cases hsv : s.videoStream
    · rw [loopMode, hsv] at h
      simp at h
    · rfl
  refine ⟨?_, ?_, ?_⟩ <;>
    simp [stopCamera, hv, loopMode, recognizeStep, detectStep]

/-- C7 witness: the theorem instantiated at a concrete Recognizing state. -/
theorem stopCamera_stops_loop_witness :
    loopMode (stopCamera recognizingState) = LoopMode.Idle ∧
    recognizeStep (stopCamera recognizingState) [] =
      (stopCamera recognizingState, false) ∧
    detectStep (stopCamera recognizingState) [] =
      (stopCamera recognizingState, false) :=
  stopCamera_stops_loop recognizingState [] (Or.inl rfl)

/-- C9: both gallery-mutating actions re-establish the invariant that the
recognize button is disabled exactly when the gallery is empty: after any
delete and after any completed capture-and-label add, the recorded disabled
flag equals the emptiness of the resulting gallery. -/
theorem recognizer_button_gate (s : AppState) (i : Nat) (name : String)
    (d : Detection) (ds : List Detection) (h : name ≠ "") :
    (deleteFace s i).recognizerDisabled =
      (deleteFace s i).faceDescriptors.isEmpty ∧
    (captureFace s (some name) (d :: ds)).recognizerDisabled =
      (captureFace s (some name) (d :: ds)).faceDescriptors.isEmpty := by
  constructor
  · rfl
  · simp [captureFace, h]

/-- C9 witness: the theorem instantiated at the initial state, deleting
index 0 and capturing "Bob" with one detection. -/
theorem recognizer_button_gate_witness :
    (deleteFace initialState 0).recognizerDisabled =
      (deleteFace initialState 0).faceDescriptors.isEmpty ∧
    (captureFace initialState (some "Bob") [⟨[0]⟩]).recognizerDisabled =
      (captureFace initialState (some "Bob") [⟨[0]⟩]).faceDescriptors.isEmpty :=
  recognizer_button_gate initialState 0 "Bob" ⟨[0]⟩ [] (by decide)

/-- C10: stopping capture when no stream is active is a complete no-op (the
gallery, the button flags and the canvas are all unchanged), and stopping
twice has the same effect as stopping once. -/
theorem stopCamera_idempotent (s : AppState) :
    (s.videoStream = false → stopCamera s = s) ∧
    stopCamera (stopCamera s) = stopCamera s := by
  constructor
  · intro h
    simp [stopCamera, h]
  · cases hv : s.videoStream
    · simp [stopCamera, hv]
    · simp [stopCamera, hv]

/-- C10 witness: the theorem instantiated at the initial state, which has no
active stream. -/
theorem stopCamera_idempotent_witness :
    stopCamera initialState = initialState ∧
    stopCamera (stopCamera initialState) = stopCamera initialState :=
  ⟨(stopCamera_idempotent initialState).1 rfl,
    (stopCamera_idempotent initialState).2⟩
